import Mathlib

/-!
Shallow embedding of the Nitron fire-control firmware, v0.9.0 revision
(file `src/unnamed/part_000`).  The control loop reads debounced pin
states into globals and then runs three control functions in order:
`pusherControl`, `flywheelControl`, `fireControl`.  Machine integers:
`unsigned long` (32-bit `millis()` clock values and timers) are `Nat`
with wraparound subtraction `sub32`; `unsigned int` counters are `Nat`
(all guarded against underflow exactly as the source is); `int` pulse
variables are `Int`.
-/

namespace Nitron

/-- ESC pulse length for normal pusher run (uS), v0.9.0. -/
def pusherRunPulse : Int := 1590

/-- ESC pulse length for minimum pusher run (uS), v0.9.0. -/
def pusherReturnPulse : Int := 1550

/-- ESC pulse length for maximum pusher brake (uS), v0.9.0. -/
def pusherStopPulse : Int := 1000

/-- ESC pulse length for normal flywheel run (uS), v0.9.0. -/
def flywheelRunPulse : Int := 1650

/-- ESC pulse length for flywheel coast (uS), v0.9.0. -/
def flywheelStopPulse : Int := 1520

/-- Minimum flywheel spool-up time in mS, v0.9.0. -/
def flywheelSpoolTime : Nat := 250

/-- Minimum flywheel run time in mS, v0.9.0. -/
def flywheelRunTime : Nat := 250

/-- Button debounce timer in mS, v0.9.0. -/
def debounceDelay : Nat := 5

/-- Shot queue depth for each mode: `{1, 3, 65535}`. -/
def shotCount : List Nat := [1, 3, 65535]

/-- Modulus of the 32-bit `unsigned long` arithmetic used for `millis()`. -/
def pow32 : Nat := 4294967296

/-- Wraparound (unsigned 32-bit) subtraction `a - b`, the meaning of
`millis() - timer` on `unsigned long` operands. -/
def sub32 (a b : Nat) : Nat := (a + (pow32 - b % pow32)) % pow32

/-- The global mutable state of the v0.9.0 firmware: the seven debounced
pin-state globals, the fire-queue globals, the flywheel timing globals,
the two output pulse globals, and the two `static` edge-detection
variables of `fireControl`. -/
structure SysState where
  magazinePinState : Bool
  ejectPinState : Bool
  disclPinState : Bool
  discrPinState : Bool
  positionPinState : Bool
  triggerPinState : Bool
  readyPinState : Bool
  shotMode : Nat
  shotsRemaining : Nat
  flywheelStartTime : Nat
  flywheelTimer : Nat
  pusherPulse : Int
  flywheelPulse : Int
  lastTriggerPinState : Bool
  lastpositionPinState : Bool
  deriving DecidableEq, Repr

/-- Initial values of the globals at cold start (v0.9.0 declarations). -/
def initState : SysState :=
  { magazinePinState := false
    ejectPinState := false
    disclPinState := false
    discrPinState := false
    positionPinState := false
    triggerPinState := false
    readyPinState := false
    shotMode := 1
    shotsRemaining := 0
    flywheelStartTime := 0
    flywheelTimer := 0
    pusherPulse := 1520
    flywheelPulse := 1520
    lastTriggerPinState := false
    lastpositionPinState := false }

/-- v0.9.0 `pusherControl()`: resolves the pusher pulse from the interlock,
home position, queue, chamber sensors and flywheel spool state; falls
through (holding the previous pulse) when no rule fires.  `now` is the
tick's `millis()` reading. -/
def pusherControl (s : SysState) (now : Nat) : SysState :=
  let p :=
    if s.ejectPinState ∧ s.magazinePinState then
      if s.positionPinState then
        if s.shotsRemaining ≠ 0 then
          if s.disclPinState ∧ s.discrPinState ∧ s.flywheelStartTime ≠ 0 ∧
              sub32 now s.flywheelStartTime ≥ flywheelSpoolTime then
            pusherRunPulse
          else
            s.pusherPulse
        else
          pusherReturnPulse
      else
        if s.shotsRemaining ≠ 0 then
          let p1 :=
            if s.flywheelStartTime ≠ 0 ∧ sub32 now s.flywheelStartTime ≥ flywheelSpoolTime then
              if s.shotsRemaining = 1 ∧ s.shotMode ≥ 1 then
                pusherReturnPulse
              else
                pusherRunPulse
            else
              s.pusherPulse
          if ¬ s.disclPinState ∧ ¬ s.discrPinState then -- Should be OR, and have a delay timer
            pusherStopPulse
          else
            p1
        else
          pusherStopPulse
    else
      pusherStopPulse
  { s with pusherPulse := p }

/-- v0.9.0 `flywheelControl()`: the activate branch records the spool-up
start (only when absent), refreshes the dead-man timer and commands Run;
the deactivate branch, checked afterwards, commands Stop and clears the
spool-up start on run-timer expiry or interlock fault. -/
def flywheelControl (s : SysState) (now : Nat) : SysState :=
  let s1 :=
    if (s.shotsRemaining ≠ 0 ∨ s.readyPinState) ∧ s.ejectPinState ∧ s.magazinePinState then
      { s with
        flywheelStartTime := if s.flywheelStartTime = 0 then now else s.flywheelStartTime
        flywheelTimer := now
        flywheelPulse := flywheelRunPulse }
    else
      s
  if sub32 now s1.flywheelTimer ≥ flywheelRunTime ∨ ¬ s1.ejectPinState ∨ ¬ s1.magazinePinState then
    { s1 with flywheelPulse := flywheelStopPulse, flywheelStartTime := 0 }
  else
    s1

/-- v0.9.0 `fireControl()`: loads the queue on a trigger rising edge under
the interlock, decrements it on a home-position rising edge, and zeroes
it on trigger release or interlock fault; updates the two `static`
edge-detection variables. -/
def fireControl (s : SysState) : SysState :=
  let shots1 :=
    if s.triggerPinState ∧ ¬ s.lastTriggerPinState ∧ s.ejectPinState ∧ s.magazinePinState then
      shotCount.getD s.shotMode 0
    else
      s.shotsRemaining
  let shots2 :=
    if shots1 ≠ 0 ∧ ¬ s.lastpositionPinState ∧ s.positionPinState then
      shots1 - 1
    else
      shots1
  let shots3 :=
    if ¬ s.triggerPinState ∨ ¬ s.ejectPinState ∨ ¬ s.magazinePinState then
      0
    else
      shots2
  { s with
    shotsRemaining := shots3
    lastTriggerPinState := s.triggerPinState
    lastpositionPinState := s.positionPinState }

/-- The control phase of one v0.9.0 `loop()` iteration: the three control
functions run in source order on the already-updated pin states. -/
def controlPhase (s : SysState) (now : Nat) : SysState :=
  fireControl (flywheelControl (pusherControl s now) now)

/-- The input phase of one v0.9.0 `loop()` iteration.  The arguments are
the values the debouncer produces for each channel this tick; per the
v0.9.0 source, `magazinePinState`, `disclPinState` and `discrPinState`
are assigned the constant `true` (their `debounceInput` calls are
commented out), so the `mag`, `discl` and `discr` arguments are ignored. -/
def readPhase (s : SysState) (mag eject discl discr position trigger ready : Bool) : SysState :=
  { s with
    magazinePinState := true
    ejectPinState := eject
    disclPinState := true
    discrPinState := true
    positionPinState := position
    triggerPinState := trigger
    readyPinState := ready }

/-- One full v0.9.0 control tick: input phase then control phase. -/
def controlTick (s : SysState) (mag eject discl discr position trigger ready : Bool)
    (now : Nat) : SysState :=
  controlPhase (readPhase s mag eject discl discr position trigger ready) now

/-- Per-channel filter state of `debounceInput`: the slices of the three
`static` arrays (`timer`, `lastState`, `currentState`) at one pin index. -/
structure DebChan where
  timer : Nat
  lastState : Bool
  currentState : Bool
  deriving DecidableEq, Repr

/-- One call of v0.9.0 `debounceInput(pin)` on its channel's filter state.
`liveValue` is the inverted raw sample `!digitalRead(pin)` and `now` the
tick's `millis()` reading; the call's return value is the
`currentState` field of the result. -/
def debounceInput (s : DebChan) (now : Nat) (liveValue : Bool) : DebChan :=
  let s1 :=
    if liveValue ≠ s.lastState then
      { s with timer := now, lastState := liveValue }
    else
      s
  if sub32 now s1.timer ≥ debounceDelay then
    { s1 with currentState := liveValue }
  else
    s1

/-- Repeated polling of one channel: fold `debounceInput` over a list of
(time, inverted raw sample) polls. -/
def debounceRun (s : DebChan) : List (Nat × Bool) → DebChan
  | [] => s
  | (t, v) :: polls => debounceRun (debounceInput s t v) polls

/-- Repeated polling of one channel on an indexed schedule: `debounceRunN
s t v n` is the filter state after polls `0, …, n-1`, where poll `i`
happens at time `t i` with inverted raw sample `v i`. -/
def debounceRunN (s : DebChan) (t : Nat → Nat) (v : Nat → Bool) : Nat → DebChan
  | 0 => s
  | n + 1 => debounceInput (debounceRunN s t v n) (t n) (v n)

/-- One `fireControl` call of a tick whose debounced inputs are: trigger
held active, interlock satisfied, home-position signal `pos` (the
chamber sensors are forced true in the v0.9.0 input phase and do not
enter `fireControl`). -/
def fireTickHeld (s : SysState) (pos : Bool) : SysState :=
  fireControl
    { s with
      magazinePinState := true
      ejectPinState := true
      triggerPinState := true
      positionPinState := pos }

/-- One completed pusher stroke as seen by `fireControl` with the trigger
held: a tick away from home followed by a tick back at home (a
home-position rising edge). -/
def strokeCycle (s : SysState) : SysState :=
  fireTickHeld (fireTickHeld s false) true

/-- Iterate `n` completed strokes with the trigger held. -/
def strokeCycles : Nat → SysState → SysState
  | 0, s => s
  | n + 1, s => strokeCycles n (strokeCycle s)

/-- Fire-queue state at the start of a held-trigger full-auto burst:
mode 2 (full-auto) selected and the queue just loaded with the sentinel
`shotCount[2] = 65535`, trigger already seen active. -/
def fullAutoState : SysState :=
  { initState with
    magazinePinState := true
    ejectPinState := true
    disclPinState := true
    discrPinState := true
    triggerPinState := true
    readyPinState := true
    shotMode := 2
    shotsRemaining := 65535
    flywheelStartTime := 1
    flywheelTimer := 1
    flywheelPulse := flywheelRunPulse
    lastTriggerPinState := true
    lastpositionPinState := false }

/-- Fire-queue state with the mechanism just arrived at home (a
home-position rising edge) while the full-auto sentinel is loaded. -/
def sentinelEdgeState : SysState :=
  { fullAutoState with positionPinState := true }

/-- Mid-stroke state with one queued shot, chamber sensors present, the
flywheel not spooled, and the previous pusher command already Stop. -/
def holdStopState : SysState :=
  { initState with
    ejectPinState := true
    magazinePinState := true
    disclPinState := true
    discrPinState := true
    positionPinState := false
    shotsRemaining := 1
    flywheelStartTime := 0
    pusherPulse := pusherStopPulse }

/-- Spec-comparison variant of `pusherControl` with the magazine conjunct
removed from the interlock and the both-chamber-sensors-absent brake
branch removed, used to state that neither can fire in a v0.9.0 tick. -/
def pusherControlNoMag (s : SysState) (now : Nat) : SysState :=
  let p :=
    if s.ejectPinState then
      if s.positionPinState then
        if s.shotsRemaining ≠ 0 then
          if s.disclPinState ∧ s.discrPinState ∧ s.flywheelStartTime ≠ 0 ∧
              sub32 now s.flywheelStartTime ≥ flywheelSpoolTime then
            pusherRunPulse
          else
            s.pusherPulse
        else
          pusherReturnPulse
      else
        if s.shotsRemaining ≠ 0 then
          if s.flywheelStartTime ≠ 0 ∧ sub32 now s.flywheelStartTime ≥ flywheelSpoolTime then
            if s.shotsRemaining = 1 ∧ s.shotMode ≥ 1 then
              pusherReturnPulse
            else
              pusherRunPulse
          else
            s.pusherPulse
        else
          pusherStopPulse
    else
      pusherStopPulse
  { s with pusherPulse := p }

/-- Spec-comparison variant of `flywheelControl` with the magazine
conjunct removed from both the activate and the deactivate condition. -/
def flywheelControlNoMag (s : SysState) (now : Nat) : SysState :=
  let s1 :=
    if (s.shotsRemaining ≠ 0 ∨ s.readyPinState) ∧ s.ejectPinState then
      { s with
        flywheelStartTime := if s.flywheelStartTime = 0 then now else s.flywheelStartTime
        flywheelTimer := now
        flywheelPulse := flywheelRunPulse }
    else
      s
  if sub32 now s1.flywheelTimer ≥ flywheelRunTime ∨ ¬ s1.ejectPinState then
    { s1 with flywheelPulse := flywheelStopPulse, flywheelStartTime := 0 }
  else
    s1

/-- Spec-comparison variant of `fireControl` with the magazine conjunct
removed from the load condition and from the zeroing condition. -/
def fireControlNoMag (s : SysState) : SysState :=
  let shots1 :=
    if s.triggerPinState ∧ ¬ s.lastTriggerPinState ∧ s.ejectPinState then
      shotCount.getD s.shotMode 0
    else
      s.shotsRemaining
  let shots2 :=
    if shots1 ≠ 0 ∧ ¬ s.lastpositionPinState ∧ s.positionPinState then
      shots1 - 1
    else
      shots1
  let shots3 :=
    if ¬ s.triggerPinState ∨ ¬ s.ejectPinState then
      0
    else
      shots2
  { s with
    shotsRemaining := shots3
    lastTriggerPinState := s.triggerPinState
    lastpositionPinState := s.positionPinState }

/-- Control phase built from the three magazine-free, brake-branch-free
variants. -/
def controlPhaseNoMag (s : SysState) (now : Nat) : SysState :=
  fireControlNoMag (flywheelControlNoMag (pusherControlNoMag s now) now)

/-- Mid-stroke state with one shot left in a burst mode, flywheel spooled,
used to witness the final-shot early back-off. -/
def lastShotState : SysState :=
  { initState with
    shotMode := 1
    shotsRemaining := 1
    flywheelStartTime := 50
    flywheelTimer := 50 }

/-- Home-position state waiting on the flywheel spool timer, used to
witness the hold-previous-command behaviour. -/
def spoolWaitState : SysState :=
  { initState with
    ejectPinState := true
    magazinePinState := true
    disclPinState := true
    discrPinState := true
    positionPinState := true
    shotsRemaining := 2
    flywheelStartTime := 50 }

/-- fireControl never touches the pusher output pulse. -/
theorem fireControl_pusherPulse (s : SysState) :
    (fireControl s).pusherPulse = s.pusherPulse := rfl

/-- flywheelControl never touches the pusher output pulse. -/
theorem flywheelControl_pusherPulse (s : SysState) (now : Nat) :
    (flywheelControl s now).pusherPulse = s.pusherPulse := by
  unfold flywheelControl
  dsimp only
  split <;> split <;> try split
  all_goals rfl

/-- pusherControl touches only the pusher output pulse: the pin states,
queue and flywheel timing pass through unchanged. -/
theorem pusherControl_fields (s : SysState) (now : Nat) :
    (pusherControl s now).ejectPinState = s.ejectPinState ∧
    (pusherControl s now).magazinePinState = s.magazinePinState ∧
    (pusherControl s now).shotsRemaining = s.shotsRemaining := ⟨rfl, rfl, rfl⟩

/-- C1: for every control tick in which the safety interlock is not
satisfied (eject/safety open or magazine absent), by the end of that
same tick the pusher command is Stop, the flywheel command is Stop, and
the remaining-shot count is zero, regardless of the commands, stroke
phase, or count held before the tick. -/
theorem interlock_fault_fails_safe (s : SysState) (now : Nat)
    (h : ¬ (s.ejectPinState = true ∧ s.magazinePinState = true)) :
    (controlPhase s now).pusherPulse = pusherStopPulse ∧
    (controlPhase s now).flywheelPulse = flywheelStopPulse ∧
    (controlPhase s now).shotsRemaining = 0 := by
  cases he : s.ejectPinState with
  | false => simp [controlPhase, pusherControl, flywheelControl, fireControl, he]
  | true =>
    cases hm : s.magazinePinState with
    | false => simp [controlPhase, pusherControl, flywheelControl, fireControl, he, hm]
    | true => exact absurd ⟨he, hm⟩ h

/-- Witness for the fail-safe theorem at the cold-start state, whose
eject/safety channel reads open. -/
theorem interlock_fault_fails_safe_witness :
    ¬ (initState.ejectPinState = true ∧ initState.magazinePinState = true) ∧
    ((controlPhase initState 0).pusherPulse = pusherStopPulse ∧
      (controlPhase initState 0).flywheelPulse = flywheelStopPulse ∧
      (controlPhase initState 0).shotsRemaining = 0) :=
  ⟨by decide, interlock_fault_fails_safe initState 0 (by decide)⟩

/-- One completed stroke with the trigger held decrements the queue by
one (with Nat truncation at zero) and keeps the trigger edge state. -/
theorem strokeCycle_shots (s : SysState) (h : s.lastTriggerPinState = true) :
    (strokeCycle s).shotsRemaining = s.shotsRemaining - 1 ∧
    (strokeCycle s).lastTriggerPinState = true := by
  by_cases hz : s.shotsRemaining = 0 <;>
    simp [strokeCycle, fireTickHeld, fireControl, h, hz]

/-- n completed strokes with the trigger held subtract n from the queue. -/
theorem strokeCycles_shots (n : Nat) :
    ∀ s : SysState, s.lastTriggerPinState = true →
      (strokeCycles n s).shotsRemaining = s.shotsRemaining - n ∧
      (strokeCycles n s).lastTriggerPinState = true := by
  induction n with
  | zero => intro s h; simpa [strokeCycles] using h
  | succ n ih =>
    intro s h
    have h1 := strokeCycle_shots s h
    have h2 := ih (strokeCycle s) h1.2
    refine ⟨?_, h2.2⟩
    have hstep : strokeCycles (n + 1) s = strokeCycles n (strokeCycle s) := rfl
    rw [hstep, h2.1, h1.1]
    omega

/-- C3 counterexample: with the full-auto sentinel 65535 loaded and the
trigger held under a satisfied interlock, a home-position rising edge
decrements the count to 65534 — the sentinel is not exempt. -/
theorem sentinel_decrement_counterexample :
    sentinelEdgeState.shotsRemaining = shotCount.getD 2 0 ∧
    sentinelEdgeState.positionPinState = true ∧
    sentinelEdgeState.lastpositionPinState = false ∧
    sentinelEdgeState.ejectPinState = true ∧
    sentinelEdgeState.magazinePinState = true ∧
    sentinelEdgeState.triggerPinState = true ∧
    (fireControl sentinelEdgeState).shotsRemaining = 65534 := by decide

/-- C3 amended: the full-auto sentinel decrements on completed strokes
like any other count; with the trigger held the queue is 65535 − n after
n strokes, stays non-zero through the first 65534 strokes, and reaches
zero at the 65535th. -/
theorem fullauto_queue_decrements (n : Nat) (h : n ≤ 65535) :
    (strokeCycles n fullAutoState).shotsRemaining = 65535 - n ∧
    (n < 65535 → (strokeCycles n fullAutoState).shotsRemaining ≠ 0) ∧
    (n = 65535 → (strokeCycles n fullAutoState).shotsRemaining = 0) := by
  have hbase := strokeCycles_shots n fullAutoState rfl
  have hshots : fullAutoState.shotsRemaining = 65535 := rfl
  rw [hshots] at hbase
  exact ⟨hbase.1, fun hc => by rw [hbase.1]; omega, fun hc => by rw [hbase.1]; omega⟩

/-- Witness for the amended full-auto queue theorem at three strokes. -/
theorem fullauto_queue_decrements_witness :
    3 ≤ 65535 ∧ (strokeCycles 3 fullAutoState).shotsRemaining = 65535 - 3 :=
  ⟨by decide, (fullauto_queue_decrements 3 (by decide)).1⟩

/-- C4: at home under a satisfied interlock with shots queued, chamber
sensors present and the flywheel started but not yet spooled for the
minimum duration, the pusher pulse is held unchanged from the previous
tick, and in particular does not become Run if it was not already. -/
theorem pusher_holds_before_spool (s : SysState) (now : Nat)
    (he : s.ejectPinState = true) (hm : s.magazinePinState = true)
    (hp : s.positionPinState = true) (hq : s.shotsRemaining ≠ 0)
    (hdl : s.disclPinState = true) (hdr : s.discrPinState = true)
    (hst : s.flywheelStartTime ≠ 0)
    (hsp : sub32 now s.flywheelStartTime < flywheelSpoolTime) :
    (pusherControl s now).pusherPulse = s.pusherPulse ∧
    (s.pusherPulse ≠ pusherRunPulse → (pusherControl s now).pusherPulse ≠ pusherRunPulse) := by
  have hcond : ¬ (sub32 now s.flywheelStartTime ≥ flywheelSpoolTime) := by omega
  simp [pusherControl, he, hm, hp, hq, hcond]

/-- Witness for the hold-before-spool theorem ten milliseconds after
spin-up start. -/
theorem pusher_holds_before_spool_witness :
    sub32 60 spoolWaitState.flywheelStartTime < flywheelSpoolTime ∧
    (pusherControl spoolWaitState 60).pusherPulse = spoolWaitState.pusherPulse :=
  ⟨by decide,
    (pusher_holds_before_spool spoolWaitState 60 rfl rfl rfl (by decide) rfl rfl
      (by decide) (by decide)).1⟩

/-- C9: mid-stroke under a satisfied v0.9.0 tick with the flywheel
spooled, a single remaining shot and a burst mode other than single
(mode at least 1) commands Return rather than Run: the pusher backs off
early on the final shot of the burst. -/
theorem final_shot_early_return (s : SysState)
    (mag eject discl discr pos trig rdy : Bool) (now : Nat)
    (he : eject = true) (hp : pos = false)
    (hq : s.shotsRemaining = 1) (hmode : 1 ≤ s.shotMode)
    (hst : s.flywheelStartTime ≠ 0)
    (hsp : sub32 now s.flywheelStartTime ≥ flywheelSpoolTime) :
    (controlTick s mag eject discl discr pos trig rdy now).pusherPulse = pusherReturnPulse := by
  subst he hp
  unfold controlTick controlPhase
  rw [fireControl_pusherPulse, flywheelControl_pusherPulse]
  simp [pusherControl, readPhase, hq, hmode, hst, hsp]

/-- Witness for the final-shot early back-off with one queued shot in
burst mode 1 and the flywheel spooled 350 mS ago. -/
theorem final_shot_early_return_witness :
    lastShotState.shotsRemaining = 1 ∧
    (controlTick lastShotState true true true true false true true 400).pusherPulse
      = pusherReturnPulse :=
  ⟨rfl,
    final_shot_early_return lastShotState true true true true false true true 400
      rfl rfl rfl (by decide) (by decide) (by decide)⟩

/-- pusherControlNoMag touches only the pusher output pulse. -/
theorem pusherControlNoMag_fields (s : SysState) (now : Nat) :
    (pusherControlNoMag s now).magazinePinState = s.magazinePinState ∧
    (pusherControlNoMag s now).disclPinState = s.disclPinState ∧
    (pusherControlNoMag s now).discrPinState = s.discrPinState := ⟨rfl, rfl, rfl⟩

/-- flywheelControlNoMag never touches the pin states. -/
theorem flywheelControlNoMag_magazine (s : SysState) (now : Nat) :
    (flywheelControlNoMag s now).magazinePinState = s.magazinePinState := by
  unfold flywheelControlNoMag
  dsimp only
  split <;> split <;> try split
  all_goals rfl

/-- With the magazine and both chamber-sensor states true, pusherControl
agrees with its magazine-free, brake-branch-free variant. -/
theorem pusherControl_eq_noMag (s : SysState) (now : Nat)
    (hm : s.magazinePinState = true) (hdl : s.disclPinState = true)
    (hdr : s.discrPinState = true) :
    pusherControl s now = pusherControlNoMag s now := by
  simp [pusherControl, pusherControlNoMag, hm, hdl, hdr]

/-- With the magazine state true, flywheelControl agrees with its
magazine-free variant. -/
theorem flywheelControl_eq_noMag (s : SysState) (now : Nat)
    (hm : s.magazinePinState = true) :
    flywheelControl s now = flywheelControlNoMag s now := by
  by_cases hA : (s.shotsRemaining ≠ 0 ∨ s.readyPinState = true) ∧ s.ejectPinState = true <;>
    simp [flywheelControl, flywheelControlNoMag, hm, hA]

/-- With the magazine state true, fireControl agrees with its
magazine-free variant. -/
theorem fireControl_eq_noMag (s : SysState) (hm : s.magazinePinState = true) :
    fireControl s = fireControlNoMag s := by
  simp [fireControl, fireControlNoMag, hm]

/-- C2: in the v0.9.0 revision the magazine-present state and both
chamber-sensor states are assigned the constant true on every tick,
so every tick behaves exactly as the variant control phase in which the
magazine-removal interlock fault and the both-chamber-sensors-absent
brake branch have been removed: only the eject/safety channel can open
the interlock. -/
theorem v090_magazine_and_discs_forced_true (s : SysState)
    (mag eject discl discr pos trig rdy : Bool) (now : Nat) :
    (readPhase s mag eject discl discr pos trig rdy).magazinePinState = true ∧
    (readPhase s mag eject discl discr pos trig rdy).disclPinState = true ∧
    (readPhase s mag eject discl discr pos trig rdy).discrPinState = true ∧
    controlTick s mag eject discl discr pos trig rdy now
      = controlPhaseNoMag (readPhase s mag eject discl discr pos trig rdy) now := by
  refine ⟨rfl, rfl, rfl, ?_⟩
  unfold controlTick controlPhase controlPhaseNoMag
  rw [pusherControl_eq_noMag _ now rfl rfl rfl]
  rw [flywheelControl_eq_noMag _ now (pusherControlNoMag_fields _ now).1]
  rw [fireControl_eq_noMag _
    (by rw [flywheelControlNoMag_magazine]; exact (pusherControlNoMag_fields _ now).1)]

/-- C5 counterexample: mid-stroke with one queued shot, the interlock
satisfied, both chamber sensors still indicating a projectile present
and the flywheel not spooled, the pusher command is nonetheless Stop
(the previous tick's braked command is retained), so the pusher does
not brake exactly when both sensors clear. -/
theorem brake_without_chamber_clear :
    holdStopState.ejectPinState = true ∧
    holdStopState.magazinePinState = true ∧
    holdStopState.positionPinState = false ∧
    holdStopState.shotsRemaining ≠ 0 ∧
    holdStopState.disclPinState = true ∧
    holdStopState.discrPinState = true ∧
    (pusherControl holdStopState 0).pusherPulse = pusherStopPulse := by decide

/-- C5 amended: mid-stroke with a satisfied interlock and a non-empty
queue, the brake rule fires exactly when both chamber sensors indicate
absence; when at least one still indicates presence, the command is
Run or Return (never a fresh Stop) if the flywheel has spooled, and
otherwise the previous command is retained — which may itself be Stop. -/
theorem midstroke_brake_condition (s : SysState) (now : Nat)
    (he : s.ejectPinState = true) (hm : s.magazinePinState = true)
    (hp : s.positionPinState = false) (hq : s.shotsRemaining ≠ 0) :
    ((¬ s.disclPinState ∧ ¬ s.discrPinState) →
      (pusherControl s now).pusherPulse = pusherStopPulse) ∧
    ((s.disclPinState ∨ s.discrPinState) →
      (s.flywheelStartTime ≠ 0 ∧ sub32 now s.flywheelStartTime ≥ flywheelSpoolTime →
        (pusherControl s now).pusherPulse
            = (if s.shotsRemaining = 1 ∧ 1 ≤ s.shotMode then pusherReturnPulse
               else pusherRunPulse) ∧
        (pusherControl s now).pusherPulse ≠ pusherStopPulse) ∧
      (¬ (s.flywheelStartTime ≠ 0 ∧ sub32 now s.flywheelStartTime ≥ flywheelSpoolTime) →
        (pusherControl s now).pusherPulse = s.pusherPulse)) := by
  refine ⟨fun hcl => ?_, fun hor => ⟨fun hsp => ?_, fun hsp => ?_⟩⟩
  · simp [pusherControl, he, hm, hp, hq, hcl.1, hcl.2]
  · rcases hor with h | h <;>
      by_cases hone : s.shotsRemaining = 1 ∧ s.shotMode ≥ 1 <;>
        simp [pusherControl, he, hm, hp, hq, hsp.1, hsp.2, h, hone,
          pusherReturnPulse, pusherRunPulse, pusherStopPulse]
  · rcases hor with h | h <;> simp [pusherControl, he, hm, hp, hq, hsp, h]

/-- Witness for the amended mid-stroke brake theorem: with sensors
present and the flywheel not spooled, the previously braked command is
retained. -/
theorem midstroke_brake_condition_witness :
    (holdStopState.disclPinState ∨ holdStopState.discrPinState) ∧
    (pusherControl holdStopState 0).pusherPulse = holdStopState.pusherPulse :=
  ⟨Or.inl rfl,
    ((midstroke_brake_condition holdStopState 0 rfl rfl rfl (by decide)).2
      (Or.inl rfl)).2 (by decide)⟩

/-- C8, Scenario A as a concrete v0.9.0 trace: with the interlock
satisfied, ready asserted and the queue empty the flywheel commands Run;
a trigger rising edge with burst mode 1 (three shots) loads the queue
with 3; three home-position rising edges decrement it to exactly 0. -/
theorem scenario_a_trace :
    (controlTick initState true true true true false false true 100).flywheelPulse
        = flywheelRunPulse ∧
    (controlTick initState true true true true false false true 100).shotsRemaining = 0 ∧
    (controlTick (controlTick initState true true true true false false true 100)
        true true true true false true true 110).shotsRemaining = 3 ∧
    (controlTick (controlTick (controlTick initState true true true true false false true 100)
        true true true true false true true 110)
        true true true true true true true 120).shotsRemaining = 2 ∧
    (controlTick (controlTick (controlTick (controlTick (controlTick initState
        true true true true false false true 100)
        true true true true false true true 110)
        true true true true true true true 120)
        true true true true false true true 130)
        true true true true true true true 140).shotsRemaining = 1 ∧
    (controlTick (controlTick (controlTick (controlTick (controlTick (controlTick (controlTick
        initState
        true true true true false false true 100)
        true true true true false true true 110)
        true true true true true true true 120)
        true true true true false true true 130)
        true true true true true true true 140)
        true true true true false true true 150)
        true true true true true true true 160).shotsRemaining = 0 := by decide

/-- C7: under the episode invariant (a recorded spin-up start implies the
flywheel is commanded Run), the spin-up timestamp is written at most
once per episode: it is either held or cleared, and it is freshly
assigned the current time only when it was absent; it is held unchanged
on any tick that keeps the flywheel commanded Run; it is cleared on
every tick whose resulting command is Stop; and the invariant is
preserved. -/
theorem flywheel_start_episode (s : SysState) (now : Nat)
    (hInv : s.flywheelStartTime ≠ 0 → s.flywheelPulse = flywheelRunPulse) :
    ((flywheelControl s now).flywheelStartTime = s.flywheelStartTime ∨
      (flywheelControl s now).flywheelStartTime = 0 ∨
      (s.flywheelStartTime = 0 ∧ (flywheelControl s now).flywheelStartTime = now ∧
        (flywheelControl s now).flywheelPulse = flywheelRunPulse)) ∧
    (s.flywheelStartTime ≠ 0 → (flywheelControl s now).flywheelPulse = flywheelRunPulse →
      (flywheelControl s now).flywheelStartTime = s.flywheelStartTime) ∧
    ((flywheelControl s now).flywheelPulse = flywheelStopPulse →
      (flywheelControl s now).flywheelStartTime = 0) ∧
    ((flywheelControl s now).flywheelStartTime ≠ 0 →
      (flywheelControl s now).flywheelPulse = flywheelRunPulse) := by
  by_cases hA : (s.shotsRemaining ≠ 0 ∨ s.readyPinState = true) ∧ s.ejectPinState = true ∧
      s.magazinePinState = true <;>
    by_cases hZ : s.flywheelStartTime = 0 <;>
      simp [flywheelControl, hA, hZ] <;> split <;>
        simp_all [flywheelRunPulse, flywheelStopPulse]

/-- Witness for the spin-up episode theorem at the cold-start state. -/
theorem flywheel_start_episode_witness :
    (initState.flywheelStartTime ≠ 0 → initState.flywheelPulse = flywheelRunPulse) ∧
    ((flywheelControl initState 0).flywheelPulse = flywheelStopPulse →
      (flywheelControl initState 0).flywheelStartTime = 0) :=
  ⟨by decide, (flywheel_start_episode initState 0 (by decide)).2.2.1⟩

/-- sub32 of equal clock readings is zero. -/
theorem sub32_zero_self (a : Nat) : sub32 a a = 0 := by
  unfold sub32 pow32
  omega

/-- sub32 computes the exact elapsed interval when no rollover occurred
between the two readings. -/
theorem sub32_exact (a b : Nat) (hba : b ≤ a) (ha : a < pow32) : sub32 a b = a - b := by
  simp only [sub32, pow32] at ha ⊢
  omega

/-- One debouncer poll whose sample equals the last-seen value keeps the
timer and last-seen value, and either keeps the committed value or
commits the (identical) sample after a full window. -/
theorem debounceInput_noreset (s : DebChan) (now : Nat) (live : Bool)
    (h : live = s.lastState) :
    (debounceInput s now live).timer = s.timer ∧
    (debounceInput s now live).lastState = s.lastState ∧
    ((debounceInput s now live).currentState = s.currentState ∨
      (sub32 now s.timer ≥ debounceDelay ∧ (debounceInput s now live).currentState = live)) := by
  have hne : ¬ (live ≠ s.lastState) := by simp [h]
  simp [debounceInput, hne]
  split <;> simp_all

/-- One debouncer poll whose sample differs from the last-seen value
resets the timer, records the sample as last-seen, and never changes
the committed value. -/
theorem debounceInput_reset (s : DebChan) (now : Nat) (live : Bool)
    (h : live ≠ s.lastState) :
    (debounceInput s now live).timer = now ∧
    (debounceInput s now live).lastState = live ∧
    (debounceInput s now live).currentState = s.currentState := by
  have hz : ¬ (sub32 now now ≥ debounceDelay) := by
    rw [sub32_zero_self]; decide
  simp [debounceInput, h, hz]

/-- A poll matching both the last-seen and the committed value keeps
both. -/
theorem debounceInput_stable (s : DebChan) (tp : Nat) (v : Bool)
    (h1 : s.lastState = v) (h2 : s.currentState = v) :
    (debounceInput s tp v).lastState = v ∧ (debounceInput s tp v).currentState = v := by
  rcases debounceInput_noreset s tp v h1.symm with ⟨_, hl, hc⟩
  refine ⟨hl.trans h1, ?_⟩
  rcases hc with hc | hc
  · exact hc.trans h2
  · exact hc.2

/-- Runs over stable samples keep the last-seen and committed values. -/
theorem debounceRun_stable (v : Bool) :
    ∀ (polls : List (Nat × Bool)) (s : DebChan),
      s.lastState = v → s.currentState = v → (∀ x ∈ polls, x.2 = v) →
      (debounceRun s polls).lastState = v ∧ (debounceRun s polls).currentState = v := by
  intro polls
  induction polls with
  | nil => intro s h1 h2 _; exact ⟨h1, h2⟩
  | cons p rest ih =>
    intro s h1 h2 hall
    rcases p with ⟨tp, b⟩
    have hb : b = v := hall (tp, b) (List.mem_cons_self _ _)
    have hs := debounceInput_stable s tp b (h1.trans hb.symm) (h2.trans hb.symm)
    exact ih _ (hs.1.trans hb) (hs.2.trans hb) fun x hx => hall x (List.mem_cons_of_mem _ hx)

/-- Runs over stable samples starting right after an observed glitch
(last-seen holds the glitch value, committed holds the stable one)
still keep the committed value. -/
theorem debounceRun_after_glitch :
    ∀ (post : List (Nat × Bool)) (s : DebChan) (v : Bool),
      s.lastState = !v → s.currentState = v → (∀ x ∈ post, x.2 = v) →
      (debounceRun s post).currentState = v := by
  intro post s v h1 h2 hall
  cases post with
  | nil => exact h2
  | cons p rest =>
    rcases p with ⟨tp, b⟩
    have hb : b = v := hall (tp, b) (List.mem_cons_self _ _)
    have hne : b ≠ s.lastState := by simp [hb, h1]
    rcases debounceInput_reset s tp b hne with ⟨_, hl, hc⟩
    exact (debounceRun_stable v rest _ (hl.trans hb) (hc.trans h2)
      fun x hx => hall x (List.mem_cons_of_mem _ hx)).2

/-- Invariant of the indexed debouncer run: the stored timer never runs
ahead of the clock, and every poll strictly later than the stored timer
sampled the current last-seen value. -/
theorem debounceRunN_invariant (t : Nat → Nat) (v : Nat → Bool) (s : DebChan)
    (hmono : ∀ i, t i ≤ t (i + 1)) (h0 : s.timer ≤ t 0) :
    ∀ i, (debounceRunN s t v i).timer ≤ t i ∧
      (∀ j, j < i → t j > (debounceRunN s t v i).timer →
        v j = (debounceRunN s t v i).lastState) := by
  have hm : Monotone t := monotone_nat_of_le_succ hmono
  intro i
  induction i with
  | zero => exact ⟨h0, fun j hj _ => absurd hj (Nat.not_lt_zero j)⟩
  | succ i ih =>
    have hstep : debounceRunN s t v (i + 1) = debounceInput (debounceRunN s t v i) (t i) (v i) :=
      rfl
    by_cases hr : v i = (debounceRunN s t v i).lastState
    · rcases debounceInput_noreset _ (t i) (v i) hr with ⟨ht, hl, _⟩
      rw [hstep, ht, hl]
      refine ⟨ih.1.trans (hmono i), fun j hj htj => ?_⟩
      rcases Nat.lt_succ_iff_lt_or_eq.mp hj with hj' | rfl
      · exact ih.2 j hj' htj
      · exact hr
    · rcases debounceInput_reset _ (t i) (v i) hr with ⟨ht, hl, _⟩
      rw [hstep, ht, hl]
      refine ⟨hmono i, fun j hj htj => ?_⟩
      have hji : j ≤ i := Nat.lt_succ_iff.mp hj
      exact absurd htj (Nat.not_lt.mpr (hm hji))

/-- Runs decompose over list append. -/
theorem debounceRun_append (xs : List (Nat × Bool)) :
    ∀ (s : DebChan) (ys : List (Nat × Bool)),
      debounceRun s (xs ++ ys) = debounceRun (debounceRun s xs) ys := by
  induction xs with
  | nil => intro s ys; rfl
  | cons p rest ih => rcases p with ⟨tp, b⟩; intro s ys; exact ih _ ys

/-- C6: a raw-sample glitch observed for a single poll never changes the
channel's committed (debounced) value, for any polling schedule; and on
any nondecreasing in-range schedule, whenever the committed value
changes at a poll, every poll within the debounce window before it
sampled the newly committed value — the debouncer never emits a value
that has not been continuously stable for the full window. -/
theorem debounce_glitch_and_stability :
    (∀ (v : Bool) (s : DebChan) (pre post : List (Nat × Bool)) (tg : Nat),
      s.lastState = v → s.currentState = v →
      (∀ x ∈ pre, x.2 = v) → (∀ x ∈ post, x.2 = v) →
      (debounceRun s (pre ++ (tg, !v) :: post)).currentState = v) ∧
    (∀ (t : Nat → Nat) (v : Nat → Bool) (s : DebChan),
      (∀ i, t i ≤ t (i + 1)) → (∀ i, t i < pow32) → s.timer ≤ t 0 →
      ∀ i, (debounceRunN s t v (i + 1)).currentState ≠ (debounceRunN s t v i).currentState →
        ∀ j, j ≤ i → t i - t j < debounceDelay →
          v j = (debounceRunN s t v (i + 1)).currentState) := by
  constructor
  · intro v s pre post tg h1 h2 hpre hpost
    rw [debounceRun_append]
    rcases debounceRun_stable v pre s h1 h2 hpre with ⟨hl, hc⟩
    have hne : (!v) ≠ (debounceRun s pre).lastState := by simp [hl]
    have hrun : debounceRun (debounceRun s pre) ((tg, !v) :: post)
        = debounceRun (debounceInput (debounceRun s pre) tg (!v)) post := rfl
    rw [hrun]
    rcases debounceInput_reset _ tg (!v) hne with ⟨_, hl2, hc2⟩
    exact debounceRun_after_glitch post _ v hl2 (hc2.trans hc) hpost
  · intro t v s hmono hbound h0 i hchange j hji hwin
    have hm : Monotone t := monotone_nat_of_le_succ hmono
    have hAB := debounceRunN_invariant t v s hmono h0 i
    have hstep : debounceRunN s t v (i + 1) = debounceInput (debounceRunN s t v i) (t i) (v i) :=
      rfl
    by_cases hr : v i = (debounceRunN s t v i).lastState
    · rcases debounceInput_noreset _ (t i) (v i) hr with ⟨_, _, hc⟩
      rcases hc with hc | ⟨hel, hc⟩
      · rw [hstep] at hchange; exact absurd hc hchange
      · rw [hstep, hc]
        rcases Nat.eq_or_lt_of_le hji with rfl | hlt
        · rfl
        · have h1 : (debounceRunN s t v i).timer ≤ t i := hAB.1
          rw [sub32_exact _ _ h1 (hbound i)] at hel
          have h3 : t j ≤ t i := hm (Nat.le_of_lt hlt)
          have htj : t j > (debounceRunN s t v i).timer := by
            by_contra hcon
            push_neg at hcon
            simp only [debounceDelay] at hel hwin
            omega
          exact (hAB.2 j hlt htj).trans hr.symm
    · rcases debounceInput_reset _ (t i) (v i) hr with ⟨_, _, hc⟩
      rw [hstep] at hchange
      exact absurd hc hchange

/-- Witness for the debouncer theorem: a one-poll glitch at time 20 in a
stable-false channel leaves the committed value false, and a commit of
true at a poll 5 mS after the last change satisfies the window check. -/
theorem debounce_glitch_and_stability_witness :
    ((⟨0, false, false⟩ : DebChan).lastState = false ∧
      (debounceRun ⟨0, false, false⟩ ([(10, false)] ++ (20, !false) :: [(30, false)])).currentState
        = false) ∧
    ((⟨0, true, false⟩ : DebChan).timer ≤ (fun _ : Nat => 5) 0 ∧
      (fun _ : Nat => true) 0
        = (debounceRunN ⟨0, true, false⟩ (fun _ => 5) (fun _ => true) (0 + 1)).currentState) :=
  ⟨⟨rfl,
    debounce_glitch_and_stability.1 false ⟨0, false, false⟩ [(10, false)] [(30, false)] 20
      rfl rfl (by decide) (by decide)⟩,
   ⟨by decide,
    debounce_glitch_and_stability.2 (fun _ => 5) (fun _ => true) ⟨0, true, false⟩
      (fun _ => Nat.le_refl 5) (fun _ => (by decide : (5 : Nat) < pow32)) (by decide) 0 (by decide) 0
      (Nat.le_refl 0) (by decide)⟩⟩

/-- C10: every elapsed-time test in the debouncer, flywheel controller
and pusher controller is `sub32 now timestamp`, and for clock readings
taken modulo the 32-bit counter this equals the true elapsed interval
whenever it fits in the counter range, so rollover never yields a
spuriously elapsed or spuriously not-elapsed comparison against the
debounce, spool, or run durations. -/
theorem elapsed_wraparound_safe (t1 t2 : Nat) (h12 : t1 ≤ t2) (hspan : t2 - t1 < pow32) :
    sub32 (t2 % pow32) (t1 % pow32) = t2 - t1 ∧
    (sub32 (t2 % pow32) (t1 % pow32) ≥ debounceDelay ↔ t2 - t1 ≥ debounceDelay) ∧
    (sub32 (t2 % pow32) (t1 % pow32) ≥ flywheelSpoolTime ↔ t2 - t1 ≥ flywheelSpoolTime) ∧
    (sub32 (t2 % pow32) (t1 % pow32) ≥ flywheelRunTime ↔ t2 - t1 ≥ flywheelRunTime) := by
  have key : sub32 (t2 % pow32) (t1 % pow32) = t2 - t1 := by
    simp only [sub32, pow32] at hspan ⊢
    omega
  rw [key]
  exact ⟨rfl, Iff.rfl, Iff.rfl, Iff.rfl⟩

/-- Witness for wraparound safety across an actual 32-bit rollover: the
clock reads 4 after rolling over from a timestamp taken at 4294967290,
and the comparison still sees the true 10 mS interval. -/
theorem elapsed_wraparound_safe_witness :
    4294967290 ≤ 4294967300 ∧
    sub32 (4294967300 % pow32) (4294967290 % pow32) = 4294967300 - 4294967290 :=
  ⟨by decide,
    (elapsed_wraparound_safe 4294967290 4294967300 (by decide) (by decide)).1⟩

end Nitron
